import Mathlib

/-!
Verification of the cursor-cli-proxy session, command-assembly and
process-executor layers against a shallow Lean embedding of the Python
source (`src/session_manager.py`, `src/relay.py`, `src/command_builder.py`,
`src/executor.py`, `src/model_registry.py`).

Conventions of the embedding:
* A Python `dict` persisted to JSON is modelled as an insertion-ordered
  association list with unique keys; `del d[k]` removes the entry with
  key `k`, `d[k] = v` replaces in place when the key is present and
  appends otherwise, exactly like CPython dicts.
* External primitives with no algorithmic content of their own
  (MD5/SHA-256 digests, base64 image persistence, the slash-command
  directory scan, JSON decoding of process output) are passed in as
  function parameters, so every theorem holds for all of them and
  witnesses instantiate them concretely.
* Real time (timeouts) and process scheduling are not modelled; the
  synchronous executor is modelled on the chunk sequence its read loop
  consumes.
-/

/-! ## Session store (src/session_manager.py) -/

/-- A persisted Session Record, the value stored in `sessions.json`
under one history-hash key (`src/session_manager.py`, `create_session`). -/
structure SessionRecord where
  session_id : String
  title : String
  created_at : String
  updated_at : String
  workspace_dir : String
deriving DecidableEq, Repr

/-- The persisted `sessions` mapping of `sessions.json`: an
insertion-ordered association list from history hash to record,
modelling the Python dict. -/
abbrev SessionIndex := List (String × SessionRecord)

/-- Python dict lookup `sessions.get(h)`: first (and, for a dict, only)
entry with the given key. -/
def lookupHash : SessionIndex → String → Option SessionRecord
  | [], _ => none
  | (k, v) :: rest, h => if k = h then some v else lookupHash rest h

/-- Python `del sessions[h]` (dict keys are unique, so removing every
entry with key `h` coincides with removing the single one). -/
def removeHash : SessionIndex → String → SessionIndex
  | [], _ => []
  | (k, v) :: rest, h => if k = h then removeHash rest h else (k, v) :: removeHash rest h

/-- Python `sessions[h] = v`: replace in place if the key is present,
append otherwise (CPython dict insertion order). -/
def insertHash : SessionIndex → String → SessionRecord → SessionIndex
  | [], h, v => [(h, v)]
  | (k, w) :: rest, h, v =>
      if k = h then (k, v) :: rest else (k, w) :: insertHash rest h v

/-- Number of entries stored under key `h`. -/
def countHash (index : SessionIndex) (h : String) : Nat :=
  (index.filter (fun e => e.1 = h)).length

/-- The dict invariant: every key occurs at most once. -/
def nodupKeys (index : SessionIndex) : Prop :=
  (index.map Prod.fst).Nodup

instance (index : SessionIndex) : Decidable (nodupKeys index) := by
  unfold nodupKeys; infer_instance

/-- `SessionManager.save_session(history_hash, session_data, old_hash)`
(`src/session_manager.py` lines 95-128): reload the index, delete
`old_hash` when it is truthy (a non-empty string) and present, then
store `session_data` under `history_hash`. -/
def save_session (index : SessionIndex) (history_hash : String)
    (session_data : SessionRecord) (old_hash : Option String) : SessionIndex :=
  let sessions :=
    match old_hash with
    | some oh =>
        if oh ≠ "" ∧ (lookupHash index oh).isSome then removeHash index oh else index
    | none => index
  insertHash sessions history_hash session_data

/-- `SessionManager.update_session_hash(old_hash, new_hash)`
(`src/session_manager.py` lines 210-221): look the record up under
`old_hash`; if absent, return with no change; otherwise refresh
`updated_at` (to `now`, passed explicitly here in place of
`datetime.now`) and call `save_session(new_hash, session, old_hash)`. -/
def update_session_hash (index : SessionIndex) (old_hash new_hash : String)
    (now : String) : SessionIndex :=
  match lookupHash index old_hash with
  | none => index
  | some session =>
      save_session index new_hash { session with updated_at := now } (some old_hash)

/-- `SessionManager.get_session_by_hash` (lines 223-226). -/
def get_session_by_hash (index : SessionIndex) (history_hash : String) :
    Option SessionRecord :=
  lookupHash index history_hash

/-! ### Association-list lemmas for the session index -/

theorem removeHash_eq_filter (index : SessionIndex) (k : String) :
    removeHash index k = index.filter (fun e => decide (e.1 ≠ k)) := by
  induction index with
  | nil => simp [removeHash]
  | cons e rest ih =>
      obtain ⟨a, v⟩ := e
      by_cases hak : a = k <;> simp [removeHash, hak, ih]

theorem lookupHash_removeHash (index : SessionIndex) (k h : String) :
    lookupHash (removeHash index k) h = if h = k then none else lookupHash index h := by
  induction index with
  | nil => simp [removeHash, lookupHash]
  | cons e rest ih =>
      obtain ⟨a, v⟩ := e
      by_cases hak : a = k
      · subst hak
        rw [show removeHash ((a, v) :: rest) a = removeHash rest a by
          simp [removeHash]]
        rw [ih]
        by_cases hha : h = a
        · simp [hha]
        · have : ¬ a = h := fun hc => hha hc.symm
          simp [hha, lookupHash, this]
      · rw [show removeHash ((a, v) :: rest) k = (a, v) :: removeHash rest k by
          simp [removeHash, hak]]
        by_cases hha : a = h
        · have hhk : ¬ h = k := fun hc => hak (hha.trans hc)
          simp [lookupHash, hha, hhk]
        · simp [lookupHash, hha, ih]

theorem lookupHash_insertHash (index : SessionIndex) (k : String) (v : SessionRecord)
    (h : String) :
    lookupHash (insertHash index k v) h = if h = k then some v else lookupHash index h := by
  induction index with
  | nil =>
      by_cases hk : h = k
      · simp [insertHash, lookupHash, hk]
      · have : ¬ k = h := fun hc => hk hc.symm
        simp [insertHash, lookupHash, hk, this]
  | cons e rest ih =>
      obtain ⟨a, w⟩ := e
      by_cases hak : a = k
      · subst hak
        rw [show insertHash ((a, w) :: rest) a v = (a, v) :: rest by simp [insertHash]]
        by_cases hha : h = a
        · simp [lookupHash, hha]
        · have : ¬ a = h := fun hc => hha hc.symm
          simp [lookupHash, hha, this]
      · rw [show insertHash ((a, w) :: rest) k v = (a, w) :: insertHash rest k v by
          simp [insertHash, hak]]
        by_cases hha : a = h
        · have hhk : ¬ h = k := fun hc => hak (hha.trans hc)
          simp [lookupHash, hha, hhk]
        · simp [lookupHash, hha, ih]

theorem countHash_eq_zero_of_not_mem_keys (index : SessionIndex) (h : String)
    (hmem : h ∉ index.map Prod.fst) : countHash index h = 0 := by
  induction index with
  | nil => simp [countHash]
  | cons e rest ih =>
      obtain ⟨a, v⟩ := e
      simp only [List.map_cons, List.mem_cons] at hmem
      push_neg at hmem
      have ha : ¬ a = h := fun hc => hmem.1 hc.symm
      simp only [countHash, List.filter_cons, decide_eq_true_eq]
      rw [if_neg ha]
      exact ih hmem.2

theorem nodupKeys_removeHash (index : SessionIndex) (k : String)
    (hnd : nodupKeys index) : nodupKeys (removeHash index k) := by
  have hsub : List.Sublist (removeHash index k) index := by
    rw [removeHash_eq_filter]
    exact List.filter_sublist index
  exact List.Nodup.sublist (List.Sublist.map Prod.fst hsub) hnd

theorem countHash_insertHash_self (index : SessionIndex) (k : String) (v : SessionRecord)
    (hnd : nodupKeys index) : countHash (insertHash index k v) k = 1 := by
  induction index with
  | nil => simp [insertHash, countHash]
  | cons e rest ih =>
      obtain ⟨a, w⟩ := e
      unfold nodupKeys at hnd
      simp only [List.map_cons, List.nodup_cons] at hnd
      by_cases hak : a = k
      · subst hak
        have hz : countHash rest a = 0 := countHash_eq_zero_of_not_mem_keys rest a hnd.1
        rw [show insertHash ((a, w) :: rest) a v = (a, v) :: rest by simp [insertHash]]
        simp only [countHash, List.filter_cons, decide_eq_true_eq, if_pos rfl,
          List.length_cons]
        simpa [countHash] using hz
      · have := ih hnd.2
        rw [show insertHash ((a, w) :: rest) k v = (a, w) :: insertHash rest k v by
          simp [insertHash, hak]]
        simp only [countHash, List.filter_cons, decide_eq_true_eq, if_neg hak]
        simpa [countHash] using this

/-! ### Claims C1 and C10 -/

/-- A concrete record used by witnesses and counterexamples. -/
def rec0 : SessionRecord :=
  { session_id := "sid-1", title := "New Chat", created_at := "t0",
    updated_at := "t0", workspace_dir := "/ws/sid-1" }

/-- A second concrete record, stored under an unrelated key in witnesses. -/
def recOther : SessionRecord :=
  { session_id := "sid-9", title := "Other", created_at := "t9",
    updated_at := "t9", workspace_dir := "/ws/sid-9" }

/-- Claim C1, counterexample: the claim quantifies over every `old_hash`
and `new_hash` with `old_hash` bound in the index, but (1) when
`new_hash = old_hash` the migrated index still holds an entry under
`old_hash`, and (2) when `old_hash` is the empty string the Python
truthiness guard `if old_hash and old_hash in sessions` skips the
deletion, so the old entry survives next to the new one. Both outcomes
contradict the claimed "no entry under old_hash". -/
theorem C1_counterexample :
    lookupHash (update_session_hash [("h", rec0)] "h" "h" "t2") "h" =
      some { rec0 with updated_at := "t2" } ∧
    lookupHash (update_session_hash [("", rec0)] "" "h2" "t2") "" = some rec0 := by
  constructor <;> decide

/-- Claim C1 (amended): provided `old_hash` is non-empty and differs from
`new_hash`, `update_session_hash old_hash new_hash` on an index binding
`old_hash` to `rec` leaves no entry under `old_hash`, exactly one entry
under `new_hash` — same `session_id`, untouched `title`, `updated_at`
refreshed to `now` — and every other key unchanged. -/
theorem C1_update_session_hash_migrates (index : SessionIndex)
    (old_hash new_hash now : String) (rec : SessionRecord)
    (hnd : nodupKeys index) (hfound : lookupHash index old_hash = some rec)
    (hne : old_hash ≠ new_hash) (hnonempty : old_hash ≠ "") :
    lookupHash (update_session_hash index old_hash new_hash now) old_hash = none ∧
    lookupHash (update_session_hash index old_hash new_hash now) new_hash =
      some { rec with updated_at := now } ∧
    countHash (update_session_hash index old_hash new_hash now) new_hash = 1 ∧
    ∀ h, h ≠ old_hash → h ≠ new_hash →
      lookupHash (update_session_hash index old_hash new_hash now) h =
        lookupHash index h := by
  have hdel : old_hash ≠ "" ∧ (lookupHash index old_hash).isSome := by
    exact ⟨hnonempty, by rw [hfound]; rfl⟩
  have hrun : update_session_hash index old_hash new_hash now =
      insertHash (removeHash index old_hash) new_hash { rec with updated_at := now } := by
    unfold update_session_hash
    rw [hfound]
    unfold save_session
    simp only [if_pos hdel]
  refine ⟨?_, ?_, ?_, ?_⟩
  · rw [hrun, lookupHash_insertHash, if_neg hne, lookupHash_removeHash, if_pos rfl]
  · rw [hrun, lookupHash_insertHash, if_pos rfl]
  · rw [hrun]
    exact countHash_insertHash_self _ _ _ (nodupKeys_removeHash index old_hash hnd)
  · intro h hold hnew
    rw [hrun, lookupHash_insertHash, if_neg hnew, lookupHash_removeHash, if_neg hold]

/-- Claim C1, witness: the amended theorem applied to a concrete
two-entry index, migrating key `"h1"` to `"h2"`. -/
theorem C1_witness :
    (nodupKeys [("h1", rec0), ("x", recOther)] ∧
      lookupHash [("h1", rec0), ("x", recOther)] "h1" = some rec0 ∧
      ("h1" : String) ≠ "h2" ∧ ("h1" : String) ≠ "") ∧
    (lookupHash (update_session_hash [("h1", rec0), ("x", recOther)] "h1" "h2" "t2") "h1" =
        none ∧
      lookupHash (update_session_hash [("h1", rec0), ("x", recOther)] "h1" "h2" "t2") "h2" =
        some { rec0 with updated_at := "t2" } ∧
      countHash (update_session_hash [("h1", rec0), ("x", recOther)] "h1" "h2" "t2") "h2" =
        1 ∧
      ∀ h, h ≠ "h1" → h ≠ "h2" →
        lookupHash (update_session_hash [("h1", rec0), ("x", recOther)] "h1" "h2" "t2") h =
          lookupHash [("h1", rec0), ("x", recOther)] h) :=
  ⟨⟨by decide, by decide, by decide, by decide⟩,
    C1_update_session_hash_migrates _ _ _ _ _ (by decide) (by decide) (by decide) (by decide)⟩

/-- Claim C10: when `old_hash` has no entry, `update_session_hash` is a
silent no-op — the function returns without writing, so the persisted
index is exactly the one it started from (hence nothing is inserted
under `new_hash` and nothing is raised). -/
theorem C10_update_session_hash_noop (index : SessionIndex)
    (old_hash new_hash now : String)
    (hmiss : lookupHash index old_hash = none) :
    update_session_hash index old_hash new_hash now = index := by
  unfold update_session_hash
  rw [hmiss]

/-- Claim C10, witness: a one-entry index and an unbound `old_hash`. -/
theorem C10_witness :
    lookupHash [("a", rec0)] "b" = none ∧
    update_session_hash [("a", rec0)] "b" "c" "t9" = [("a", rec0)] :=
  ⟨by decide, C10_update_session_hash_noop [("a", rec0)] "b" "c" "t9" (by decide)⟩

/-! ## Model registry display remapping (src/model_registry.py) -/

/-- Python `str.startswith(p)`, on code points. -/
def pyStartswith (s p : String) : Bool :=
  p.data.isPrefixOf s.data

/-- `ModelRegistry.to_display_id` (`src/model_registry.py` lines 26-31):
prepend `claude-` to ids starting with `opus-` or `sonnet-` that do not
already start with `claude-`. -/
def to_display_id (model_id : String) : String :=
  if (pyStartswith model_id "opus-" || pyStartswith model_id "sonnet-") &&
      !(pyStartswith model_id "claude-") then
    "claude-" ++ model_id
  else
    model_id

/-- `ModelRegistry.to_cli_id` (`src/model_registry.py` lines 33-38):
strip a leading `claude-`; `model_id[len("claude-"):]` is a code-point
drop of 7. -/
def to_cli_id (model_id : String) : String :=
  if pyStartswith model_id "claude-" then
    String.mk (model_id.data.drop 7)
  else
    model_id

theorem pyStartswith_append_self (p x : String) :
    pyStartswith (p ++ x) p = true := by
  simp [pyStartswith, String.data_append]

theorem to_cli_id_claude_append (x : String) :
    to_cli_id ("claude-" ++ x) = x := by
  unfold to_cli_id
  rw [if_pos (pyStartswith_append_self "claude-" x)]
  rw [String.data_append]
  rw [show (7 : Nat) = ("claude-".data).length from rfl, List.drop_left]

/-- Claim C9, counterexample: the round trip fails on an id that already
starts with `claude-` — `to_display_id` leaves `"claude-foo"` unchanged
(it does not start with `opus-`/`sonnet-`), and `to_cli_id` then strips
the prefix, returning `"foo"`. -/
theorem C9_counterexample :
    to_cli_id (to_display_id "claude-foo") = "foo" ∧ ("foo" : String) ≠ "claude-foo" := by
  constructor <;> decide

/-- Claim C9 (amended): `to_display_id` is idempotent on every model id,
and `to_cli_id` inverts `to_display_id` on every id that does not itself
start with `claude-`; ids already carrying the prefix lose it in the
round trip. -/
theorem C9_display_remap (x : String) (hx : pyStartswith x "claude-" = false) :
    to_display_id (to_display_id x) = to_display_id x ∧
    to_cli_id (to_display_id x) = x ∧
    ∀ y, to_display_id (to_display_id y) = to_display_id y := by
  have idem : ∀ y, to_display_id (to_display_id y) = to_display_id y := by
    intro y
    by_cases hc : ((pyStartswith y "opus-" || pyStartswith y "sonnet-") &&
        !(pyStartswith y "claude-")) = true
    · have hy : to_display_id y = "claude-" ++ y := by
        unfold to_display_id
        rw [if_pos hc]
      rw [hy]
      unfold to_display_id
      rw [pyStartswith_append_self "claude-" y]
      simp
    · have hy : to_display_id y = y := by
        unfold to_display_id
        rw [if_neg hc]
      rw [hy, hy]
  refine ⟨idem x, ?_, idem⟩
  by_cases hc : ((pyStartswith x "opus-" || pyStartswith x "sonnet-") &&
      !(pyStartswith x "claude-")) = true
  · have hy : to_display_id x = "claude-" ++ x := by
      unfold to_display_id
      rw [if_pos hc]
    rw [hy, to_cli_id_claude_append]
  · have hy : to_display_id x = x := by
      unfold to_display_id
      rw [if_neg hc]
    rw [hy]
    unfold to_cli_id
    rw [hx]
    simp

/-- Claim C9, witness: the amended theorem at `"opus-4.6"`, an id the
prefix is really added to and stripped from. -/
theorem C9_witness :
    pyStartswith "opus-4.6" "claude-" = false ∧
    (to_display_id (to_display_id "opus-4.6") = to_display_id "opus-4.6" ∧
      to_cli_id (to_display_id "opus-4.6") = "opus-4.6" ∧
      ∀ y, to_display_id (to_display_id y) = to_display_id y) :=
  ⟨by decide, C9_display_remap "opus-4.6" (by decide)⟩

/-! ## Command assembler (src/relay.py CommandBuilder and
src/command_builder.py CommandBuilder)

The repository carries two copies of the assembler: the one in
`src/relay.py` (imported by `src/main.py`) and the refactored one in
`src/command_builder.py`. They differ exactly in `_merge_messages`, so
both are embedded. The MD5 content digest and the base64 image
persistence are passed in as `digest`/`imageSave` parameters, the
slash-command loader as a `resolver` parameter. -/

/-- `CURSOR_CLI_PROXY_TMP` from `src/config.py`. -/
def CURSOR_CLI_PROXY_TMP : String := "/tmp/cursor-cli-proxy"

/-- `CONTENT_SIZE_THRESHOLD` from `src/temp_file_handler.py` /
`src/relay.py`. -/
def CONTENT_SIZE_THRESHOLD : Nat := 4000

/-- The `role` literal of `src/models.py` `Message`. -/
inductive Role
  | system
  | user
  | assistant
deriving DecidableEq, BEq, Repr

/-- Python `msg.role.upper()`. -/
def roleUpper : Role → String
  | .system => "SYSTEM"
  | .user => "USER"
  | .assistant => "ASSISTANT"

/-- The `ContentPart` union of `src/models.py`: a text part or an
image-url part (the nested `image_url.url` field is inlined). -/
inductive ContentPart
  | text (t : String)
  | image_url (url : String)
deriving DecidableEq, BEq, Repr

/-- `Message.content`: a plain string or a list of content parts. -/
inductive MessageContent
  | str (s : String)
  | parts (ps : List ContentPart)
deriving DecidableEq, BEq, Repr

/-- `src/models.py` `Message`. -/
structure Msg where
  role : Role
  content : MessageContent
deriving DecidableEq, BEq, Repr

/-- Python `str.strip()`: drop whitespace from both ends (structural, so
that proofs can evaluate it; `String.trim` in core is extensionally the
same but is defined through non-reducing substring auxiliaries). -/
def pyStrip (s : String) : String :=
  String.mk (((s.data.dropWhile Char.isWhitespace).reverse.dropWhile
    Char.isWhitespace).reverse)

/-- Python `text.split("\n", 1)` in the shape used by
`extract_filename_and_content`: `none` when the text has no newline,
otherwise the part before the first newline and the remainder. -/
def splitOnceNL : List Char → Option (List Char × List Char)
  | [] => none
  | c :: cs =>
      if c = '\n' then some ([], cs)
      else
        match splitOnceNL cs with
        | some (l, r) => some (c :: l, r)
        | none => none

/-- Python `s.rsplit(".", 1)[-1]`: the segment after the last dot, the
whole string when no dot occurs. -/
def afterLastDot (s : List Char) : List Char :=
  ((s.reverse).takeWhile (fun c => !(c = '.'))).reverse

/-- Python `str.isalnum` (ASCII approximation: the repository only feeds
it file extensions; the empty string is not alphanumeric, as in Python). -/
def pyIsalnum (s : List Char) : Bool :=
  !s.isEmpty && s.all Char.isAlphanum

/-- `extract_filename_and_content` (`src/temp_file_handler.py` lines
102-123, identical in `src/relay.py`): detect a `<name>.<ext>` first
line (length below 300, a dot, not starting with a space, extension of
at most 10 alphanumeric characters after lowercasing) and split it off. -/
def extract_filename_and_content (text : String) : Option String × String :=
  match splitOnceNL text.data with
  | none => (none, text)
  | some (l0, rest) =>
      let first_line := pyStrip (String.mk l0)
      let rest_content := String.mk rest
      if first_line.length < 300 && first_line.data.contains '.' &&
          !(pyStartswith first_line " ") then
        let ext := String.mk ((afterLastDot first_line.data).map Char.toLower)
        if ext.length ≤ 10 && pyIsalnum ext.data then
          (some first_line, rest_content)
        else (none, text)
      else (none, text)

/-- `save_content_to_temp_file` (`src/temp_file_handler.py` lines 18-47,
identical in `src/relay.py`), with the MD5 digest `md5(content)[:12]`
passed in as `digest`; the `extension` argument is always `None` at the
call sites embedded here, so it is dropped. Returns the path written. -/
def save_content_to_temp_file (digest : String → String) (content : String)
    (filename_hint : Option String) : String :=
  let ext :=
    match filename_hint with
    | some hint =>
        if hint.data.contains '.' then
          let e := "." ++ String.mk ((afterLastDot hint.data).map Char.toLower)
          if e.length > 10 || !(pyIsalnum (e.data.drop 1)) then ".txt" else e
        else ".txt"
    | none => ".txt"
  CURSOR_CLI_PROXY_TMP ++ "/upload_" ++ digest content ++ ext

/-- `CommandBuilder._process_content_part` (both copies): text above the
size threshold is persisted and replaced by an `@path` reference,
optionally prefixed with the detected filename. -/
def _process_content_part (digest : String → String) (text : String) : String :=
  if text.length > CONTENT_SIZE_THRESHOLD then
    let fc := extract_filename_and_content text
    let filepath := save_content_to_temp_file digest fc.2 fc.1
    match fc.1 with
    | some hint => "File \x27" ++ hint ++ "\x27: @" ++ filepath
    | none => "@" ++ filepath
  else text

/-- `CommandBuilder._process_image_part` (both copies); `imageSave`
stands for `save_image_to_temp_file` (base64 decode + MD5 + write),
returning `none` on decode failure exactly as the source returns `None`. -/
def _process_image_part (imageSave : String → Option String)
    (image_url : String) : String :=
  if pyStartswith image_url "data:" then
    match imageSave image_url with
    | some filepath => "@" ++ filepath
    | none => "[Image - failed to process]"
  else if pyStartswith image_url "http" then
    "[Image URL: " ++ image_url ++ "]"
  else
    "[Image - unsupported format]"

/-- `CommandBuilder._get_processed_content` (both copies), on the typed
`ContentPart` shapes of `src/models.py`. -/
def _get_processed_content (digest : String → String)
    (imageSave : String → Option String) (m : Msg) : String :=
  match m.content with
  | .str s => _process_content_part digest s
  | .parts ps =>
      String.intercalate "\n" (ps.map (fun p =>
        match p with
        | .text t => _process_content_part digest t
        | .image_url url => _process_image_part imageSave url))

/-- `CommandBuilder._get_raw_content` (`src/command_builder.py` lines
98-108): plain text without temp-file processing; image parts contribute
nothing. -/
def _get_raw_content (m : Msg) : String :=
  match m.content with
  | .str s => s
  | .parts ps =>
      String.intercalate "\n" (ps.filterMap (fun p =>
        match p with
        | .text t => some t
        | .image_url _ => none))

/-- `any(msg.role == "assistant" for msg in self.messages)`. -/
def hasAssistantIn (messages : List Msg) : Bool :=
  messages.any (fun m => m.role == Role.assistant)

/-- One message of `src/command_builder.py` `_merge_messages` (lines
110-137): user turns get processed content and slash resolution, other
roles raw content; role labels only when an assistant turn is present. -/
def cbRenderMsg (digest : String → String) (imageSave : String → Option String)
    (resolver : String → String) (has_assistant : Bool) (m : Msg) : String :=
  let content :=
    if m.role == Role.user then pyStrip (_get_processed_content digest imageSave m)
    else pyStrip (_get_raw_content m)
  let content := if m.role == Role.user then resolver content else content
  if has_assistant then roleUpper m.role ++ ": " ++ content else content

/-- `src/command_builder.py` `CommandBuilder._merge_messages`. -/
def cb_merge_messages (digest : String → String)
    (imageSave : String → Option String) (resolver : String → String)
    (messages : List Msg) : String :=
  String.intercalate "\n\n"
    (messages.map (cbRenderMsg digest imageSave resolver (hasAssistantIn messages)))

/-- One message of `src/relay.py` `_merge_messages` (lines 332-355): the
processed (materialized) content is used for EVERY role; only the slash
expansion (`expander`, standing for
`self.slash_loader.expand_slash_command`) is restricted to user turns. -/
def relayRenderMsg (digest : String → String)
    (imageSave : String → Option String) (expander : String → String)
    (has_assistant : Bool) (m : Msg) : String :=
  let content := pyStrip (_get_processed_content digest imageSave m)
  let content := if m.role == Role.user then expander content else content
  if has_assistant then roleUpper m.role ++ ": " ++ content else content

/-- `src/relay.py` `CommandBuilder._merge_messages`, the copy
`src/main.py` imports. -/
def relay_merge_messages (digest : String → String)
    (imageSave : String → Option String) (expander : String → String)
    (messages : List Msg) : String :=
  String.intercalate "\n\n"
    (messages.map (relayRenderMsg digest imageSave expander (hasAssistantIn messages)))

/-! ### Claim C3 -/

/-- A 4001-character payload, one over the threshold. -/
def longA : String := String.mk (List.replicate 4001 'a')

theorem splitOnceNL_replicate_a (n : Nat) :
    splitOnceNL (List.replicate n 'a') = none := by
  induction n with
  | zero => rfl
  | succ k ih => simp [List.replicate, splitOnceNL, ih]

theorem longA_length : longA.length = 4001 := by
  rw [show longA.length = (List.replicate 4001 'a').length from rfl,
    List.length_replicate]

theorem longA_data : longA.data = List.replicate 4001 'a' := rfl

theorem process_longA (digest : String → String) :
    _process_content_part digest longA =
      "@" ++ save_content_to_temp_file digest longA none := by
  unfold _process_content_part
  rw [if_pos (by rw [longA_length]; decide)]
  have hfc : extract_filename_and_content longA = (none, longA) := by
    unfold extract_filename_and_content
    rw [longA_data, splitOnceNL_replicate_a]
  rw [hfc]

/-- Claim C3, counterexample: in the assembler the application actually
uses (`src/relay.py` `_merge_messages`), an assistant turn one character
over the threshold is replaced by an `@path` reference instead of being
inlined verbatim — its text does not occur anywhere in the merged
instruction. -/
theorem C3_counterexample :
    relay_merge_messages (fun _ => "d") (fun _ => none) (fun s => s)
        [{ role := Role.assistant, content := .str longA }] =
      "ASSISTANT: @/tmp/cursor-cli-proxy/upload_d.txt" ∧
    ¬ List.IsInfix longA.data
        ("ASSISTANT: @/tmp/cursor-cli-proxy/upload_d.txt" : String).data := by
  constructor
  · unfold relay_merge_messages
    rw [show hasAssistantIn [{ role := Role.assistant, content := .str longA }] = true
      from rfl]
    simp only [List.map_cons, List.map_nil]
    unfold relayRenderMsg
    rw [show _get_processed_content (fun _ => "d") (fun _ => none)
          { role := Role.assistant, content := .str longA } =
        _process_content_part (fun _ => "d") longA from rfl]
    rw [process_longA]
    decide
  · intro hinf
    have hle := List.IsInfix.length_le hinf
    rw [longA_data, List.length_replicate] at hle
    have h46 : ("ASSISTANT: @/tmp/cursor-cli-proxy/upload_d.txt" : String).data.length = 46 :=
      by decide
    rw [h46] at hle
    omega

/-- Claim C3 (amended): directive resolution is applied only to
user-role turns in both assemblers, and in `src/command_builder.py`
size-threshold materialization is applied only to user-role turns — a
system or assistant turn contributes exactly its stripped raw text (with
its role label) no matter how long it is and no matter what digest,
image store or resolver are in effect; in `src/relay.py` (the assembler
`src/main.py` uses) a non-user turn skips directive resolution but still
goes through size-threshold materialization; and in both, a user turn
above the threshold is replaced by an `@path` reference. -/
theorem C3_role_gating (digest : String → String)
    (imageSave : String → Option String) (resolver : String → String)
    (has_assistant : Bool) (m : Msg) (hrole : m.role ≠ Role.user)
    (s : String) (hlen : s.length > CONTENT_SIZE_THRESHOLD)
    (hnl : splitOnceNL s.data = none) :
    cbRenderMsg digest imageSave resolver has_assistant m =
      (if has_assistant then roleUpper m.role ++ ": " else "") ++
        pyStrip (_get_raw_content m) ∧
    relayRenderMsg digest imageSave resolver has_assistant m =
      (if has_assistant then roleUpper m.role ++ ": " else "") ++
        pyStrip (_get_processed_content digest imageSave m) ∧
    cbRenderMsg digest imageSave resolver has_assistant
        { role := Role.user, content := .str s } =
      (if has_assistant then "USER: " else "") ++
        resolver (pyStrip ("@" ++ save_content_to_temp_file digest s none)) := by
  have hbeq : (m.role == Role.user) = false := by
    cases hr : m.role
    · rfl
    · exact absurd hr hrole
    · rfl
  refine ⟨?_, ?_, ?_⟩
  · unfold cbRenderMsg
    rw [hbeq]
    cases has_assistant <;> rfl
  · unfold relayRenderMsg
    rw [hbeq]
    cases has_assistant <;> rfl
  · have hproc : _process_content_part digest s =
        "@" ++ save_content_to_temp_file digest s none := by
      unfold _process_content_part
      rw [if_pos hlen]
      have hfc : extract_filename_and_content s = (none, s) := by
        unfold extract_filename_and_content
        rw [hnl]
      rw [hfc]
    unfold cbRenderMsg
    simp only [show (Role.user == Role.user) = true from rfl, if_true]
    rw [show _get_processed_content digest imageSave
          { role := Role.user, content := .str s } =
        _process_content_part digest s from rfl]
    rw [hproc]
    cases has_assistant <;> rfl

/-- Claim C3, witness: the amended theorem at a concrete system turn and
a concrete 4001-character user payload. -/
theorem C3_witness :
    (({ role := Role.system, content := .str "Be helpful" } : Msg).role ≠ Role.user ∧
      longA.length > CONTENT_SIZE_THRESHOLD ∧ splitOnceNL longA.data = none) ∧
    (cbRenderMsg (fun _ => "d") (fun _ => none) (fun s => s) false
        { role := Role.system, content := .str "Be helpful" } =
      (if false then roleUpper Role.system ++ ": " else "") ++
        pyStrip (_get_raw_content { role := Role.system, content := .str "Be helpful" }) ∧
      relayRenderMsg (fun _ => "d") (fun _ => none) (fun s => s) false
          { role := Role.system, content := .str "Be helpful" } =
        (if false then roleUpper Role.system ++ ": " else "") ++
          pyStrip (_get_processed_content (fun _ => "d") (fun _ => none)
            { role := Role.system, content := .str "Be helpful" }) ∧
      cbRenderMsg (fun _ => "d") (fun _ => none) (fun s => s) false
          { role := Role.user, content := .str longA } =
        (if false then "USER: " else "") ++
          (pyStrip ("@" ++ save_content_to_temp_file (fun _ => "d") longA none))) :=
  ⟨⟨by decide, by rw [longA_length]; decide,
      by rw [longA_data]; exact splitOnceNL_replicate_a 4001⟩,
    C3_role_gating (fun _ => "d") (fun _ => none) (fun s => s) false
      { role := Role.system, content := .str "Be helpful" } (by decide)
      longA (by rw [longA_length]; decide)
      (by rw [longA_data]; exact splitOnceNL_replicate_a 4001)⟩

/-! ## Process executor, synchronous mode (src/executor.py lines 15-63,
identical in src/relay.py lines 388-436)

The read loop accumulates stdout chunks and, after each chunk, attempts
to JSON-decode the whole buffer. JSON decoding is external, so it is a
parameter `parse : String → Option (Option String)`: `none` when the
buffer is not (yet) a complete JSON document, `some r` when it decodes,
with `r` the value of its `result` field (`none` when the field is
absent, matching `data.get("result", "")`). The chunk list is the
sequence of `process.stdout.read(4096)` results; an empty chunk is
end-of-stream. Real time is not modelled, so the `asyncio.TimeoutError`
branch (the only `raise` in the function) does not appear; the
`Except` result type records that every run of the read loop returns
normally. -/

/-- Failure type of the executor: what a raised `RuntimeError` would
carry. -/
abbrev ExecError := String

/-- The loop body of `read_until_json`. -/
def read_until_json (parse : String → Option (Option String)) :
    String → List String → String
  | buffer, [] => (pyStrip buffer)
  | buffer, chunk :: rest =>
      if chunk = "" then (pyStrip buffer)
      else
        match parse (buffer ++ chunk) with
        | some r => r.getD ""
        | none => read_until_json parse (buffer ++ chunk) rest

/-- `Executor.run_non_stream`: the value returned for a given stdout
chunk sequence, exit code and stderr. The exit code and stderr are
accepted to make the claimed dependence on them statable. -/
def run_non_stream (parse : String → Option (Option String))
    (chunks : List String) (returncode : Int) (stderr : String) :
    Except ExecError String :=
  Except.ok (read_until_json parse "" chunks)

/-- Concatenation of the chunk list (the accumulated `stdout_buffer`). -/
def concatStr (l : List String) : String :=
  l.foldr (fun a b => a ++ b) ""

theorem read_until_json_no_decode (parse : String → Option (Option String))
    (chunks : List String) :
    ∀ buffer : String, (∀ c ∈ chunks, c ≠ "") →
    (∀ i < chunks.length, parse (buffer ++ concatStr (chunks.take (i + 1))) = none) →
    read_until_json parse buffer chunks = pyStrip (buffer ++ concatStr chunks) := by
  induction chunks with
  | nil =>
      intro buffer _ _
      rw [show concatStr [] = "" from rfl, String.append_empty]
      rfl
  | cons c rest ih =>
      intro buffer hne hnd
      have hc : c ≠ "" := hne c (List.mem_cons_self c rest)
      unfold read_until_json
      rw [if_neg hc]
      have h0 : parse (buffer ++ c) = none := by
        have := hnd 0 (by simp)
        rw [show concatStr (List.take 1 (c :: rest)) = c ++ "" from rfl,
          String.append_empty] at this
        exact this
      rw [h0]
      have hstep : ∀ i < rest.length,
          parse (buffer ++ c ++ concatStr (rest.take (i + 1))) = none := by
        intro i hi
        have := hnd (i + 1) (by simpa using Nat.succ_lt_succ hi)
        rw [show concatStr (List.take (i + 2) (c :: rest)) =
            c ++ concatStr (rest.take (i + 1)) from rfl] at this
        rw [String.append_assoc]
        exact this
      have := ih (buffer ++ c) (fun d hd => hne d (List.mem_cons_of_mem c hd)) hstep
      rw [this]
      rw [show concatStr (c :: rest) = c ++ concatStr rest from rfl,
        String.append_assoc]

theorem read_until_json_first_decode (parse : String → Option (Option String)) :
    ∀ (chunks : List String) (buffer : String) (k : Nat) (r : Option String),
    k < chunks.length →
    (∀ c ∈ chunks.take (k + 1), c ≠ "") →
    (∀ i < k, parse (buffer ++ concatStr (chunks.take (i + 1))) = none) →
    parse (buffer ++ concatStr (chunks.take (k + 1))) = some r →
    read_until_json parse buffer chunks = r.getD "" := by
  intro chunks
  induction chunks with
  | nil => intro buffer k r hk; exact absurd hk (by simp)
  | cons c rest ih =>
      intro buffer k r hk hne hnd hdec
      have hc : c ≠ "" := hne c (by simp)
      unfold read_until_json
      rw [if_neg hc]
      cases k with
      | zero =>
          rw [show concatStr (List.take 1 (c :: rest)) = c ++ "" from rfl,
            String.append_empty] at hdec
          rw [hdec]
      | succ k0 =>
          have h0 : parse (buffer ++ c) = none := by
            have := hnd 0 (Nat.succ_pos k0)
            rw [show concatStr (List.take 1 (c :: rest)) = c ++ "" from rfl,
              String.append_empty] at this
            exact this
          rw [h0]
          refine ih (buffer ++ c) k0 r (by simpa using Nat.lt_of_succ_lt_succ hk)
            (fun d hd => hne d (List.mem_cons_of_mem c hd)) ?_ ?_
          · intro i hi
            have := hnd (i + 1) (Nat.succ_lt_succ hi)
            rw [show concatStr (List.take (i + 2) (c :: rest)) =
                c ++ concatStr (rest.take (i + 1)) from rfl,
              ← String.append_assoc] at this
            exact this
          · rw [show concatStr (List.take (k0 + 2) (c :: rest)) =
                c ++ concatStr (rest.take (k0 + 1)) from rfl,
              ← String.append_assoc] at hdec
            exact hdec

/-- Claim C4, counterexample: the process exits with code 1, stderr
carries a message, and stdout (`"oops"`) never decodes as JSON — yet
`run_non_stream` returns normally with the trimmed raw output; no
execution failure carrying the exit code and stderr exists in the
function (its only `raise` is the timeout branch). -/
theorem C4_counterexample :
    run_non_stream (fun _ => none) ["oops"] 1 "fatal" = Except.ok "oops" := by
  rfl

/-- Claim C4 (amended): when stdout never contains a decodable JSON
document, `run_non_stream` does not raise an execution failure — it
returns the trimmed raw output normally, whatever the exit code, and its
result does not depend on the exit code or stderr at all. -/
theorem C4_run_non_stream_never_raises (parse : String → Option (Option String))
    (chunks : List String) (returncode : Int) (stderr : String)
    (hne : ∀ c ∈ chunks, c ≠ "")
    (hnd : ∀ i < chunks.length, parse (concatStr (chunks.take (i + 1))) = none) :
    run_non_stream parse chunks returncode stderr =
      Except.ok (pyStrip (concatStr chunks)) ∧
    (∀ e, run_non_stream parse chunks returncode stderr ≠ Except.error e) ∧
    (∀ rc2 err2, run_non_stream parse chunks returncode stderr =
      run_non_stream parse chunks rc2 err2) := by
  have hok : run_non_stream parse chunks returncode stderr =
      Except.ok (pyStrip (concatStr chunks)) := by
    unfold run_non_stream
    rw [read_until_json_no_decode parse chunks "" hne
      (by intro i hi; rw [String.empty_append]; exact hnd i hi)]
    rw [String.empty_append]
  refine ⟨hok, ?_, fun rc2 err2 => rfl⟩
  intro e hcontra
  rw [hok] at hcontra
  cases hcontra

/-- Claim C4, witness: concrete non-JSON output with exit code 1. -/
theorem C4_witness :
    ((∀ c ∈ ["hello"], c ≠ "") ∧
      (∀ i < (["hello"] : List String).length,
        (fun _ => (none : Option (Option String)))
          (concatStr (["hello"].take (i + 1))) = none)) ∧
    (run_non_stream (fun _ => none) ["hello"] 1 "boom" =
        Except.ok (pyStrip (concatStr ["hello"])) ∧
      (∀ e, run_non_stream (fun _ => none) ["hello"] 1 "boom" ≠ Except.error e) ∧
      (∀ rc2 err2, run_non_stream (fun _ => none) ["hello"] 1 "boom" =
        run_non_stream (fun _ => none) ["hello"] rc2 err2)) :=
  ⟨⟨by decide, fun _ _ => rfl⟩,
    C4_run_non_stream_never_raises (fun _ => none) ["hello"] 1 "boom"
      (by decide) (fun _ _ => rfl)⟩

/-- Claim C6: the read loop returns the `result` field (empty string
when the field is absent, via `Option.getD`) of the first chunk-aligned
prefix of accumulated bytes that decodes as a complete JSON document —
whatever chunks follow and whatever the exit code, so termination is by
successful decode, not process exit; and when end-of-stream is reached
with no prefix decodable, it returns the raw accumulated bytes, trimmed,
instead of failing. -/
theorem C6_run_non_stream_read_loop (parse : String → Option (Option String))
    (chunks : List String) (returncode : Int) (stderr : String)
    (hne : ∀ c ∈ chunks, c ≠ "") :
    (∀ (k : Nat) (r : Option String), k < chunks.length →
      (∀ i < k, parse (concatStr (chunks.take (i + 1))) = none) →
      parse (concatStr (chunks.take (k + 1))) = some r →
      run_non_stream parse chunks returncode stderr = Except.ok (r.getD "")) ∧
    ((∀ i < chunks.length, parse (concatStr (chunks.take (i + 1))) = none) →
      run_non_stream parse chunks returncode stderr =
        Except.ok (pyStrip (concatStr chunks))) := by
  constructor
  · intro k r hk hnd hdec
    unfold run_non_stream
    rw [read_until_json_first_decode parse chunks "" k r hk
      (fun d hd => hne d (List.mem_of_mem_take hd))
      (by intro i hi; rw [String.empty_append]; exact hnd i hi)
      (by rw [String.empty_append]; exact hdec)]
  · intro hnd
    unfold run_non_stream
    rw [read_until_json_no_decode parse chunks "" hne
      (by intro i hi; rw [String.empty_append]; exact hnd i hi)]
    rw [String.empty_append]

/-- Claim C6, witness: a parse oracle that decodes once the buffer is
`"AB"` with result field `"fin"`; the loop stops at the second chunk and
ignores the trailing chunk and the non-zero exit code. -/
theorem C6_witness :
    (∀ c ∈ ["A", "B", "C"], c ≠ "") ∧
    (1 < (["A", "B", "C"] : List String).length ∧
      (∀ i < 1, (fun b => if b = "AB" then some (some "fin") else none)
        (concatStr (["A", "B", "C"].take (i + 1))) = (none : Option (Option String))) ∧
      (fun b => if b = "AB" then some (some "fin") else none)
        (concatStr (["A", "B", "C"].take 2)) = some (some "fin")) ∧
    run_non_stream (fun b => if b = "AB" then some (some "fin") else none)
      ["A", "B", "C"] 7 "ignored" = Except.ok "fin" :=
  ⟨by decide,
    ⟨by decide,
      by
        intro i hi
        have hz : i = 0 := by omega
        subst hz
        decide,
      by decide⟩,
    (C6_run_non_stream_read_loop (fun b => if b = "AB" then some (some "fin") else none)
        ["A", "B", "C"] 7 "ignored" (by decide)).1 1 (some "fin") (by decide)
      (by
        intro i hi
        have hz : i = 0 := by omega
        subst hz
        decide)
      (by decide)⟩

/-! ## Tool-call formatters (src/tool_formatters.py)

A `tool_call` JSON object is modelled as an insertion-ordered
association list from its outer key (`writeToolCall`, `readToolCall`,
...) to a body holding the `args` and `result` sub-objects, restricted
to the fields the formatters read; `dict.get(key, default)` becomes
`Option.getD`. Membership tests `"k" in tool_call` follow the source's
`if/elif` order, and the unknown-shape fallback takes the first key of
the association list, as `next(iter(tool_call.keys()))` does. -/

/-- The `args` sub-object fields read by `format_tool_call_start`. -/
structure ToolArgs where
  path : Option String := none
  offset : Option Int := none
  limit : Option Int := none
  pattern : Option String := none
  command : Option String := none
  name : Option String := none
  providerIdentifier : Option String := none
deriving DecidableEq, Repr

/-- The `result.success` fields read by `format_tool_call_result`. -/
structure SuccessBody where
  linesCreated : Option Int := none
  fileSize : Option Int := none
  totalLines : Option Int := none
  linesRead : Option Int := none
  matchCount : Option Int := none
  lineCount : Option Int := none
  exitCode : Option Int := none
deriving DecidableEq, Repr

/-- The `result` sub-object: presence of `success` / `error` /
`rejected` keys with the fields the formatters read. -/
structure ToolResult where
  success : Option SuccessBody := none
  errorMessage : Option (Option String) := none
  rejectedReason : Option (Option String) := none
deriving DecidableEq, Repr

/-- The value under one outer key of a `tool_call` object. -/
structure ToolBody where
  args : ToolArgs := {}
  result : ToolResult := {}
deriving DecidableEq, Repr

/-- A `tool_call` JSON object: outer keys in insertion order. -/
abbrev ToolCall := List (String × ToolBody)

/-- Python `"k" in tool_call` / `tool_call["k"]` on the modelled dict. -/
def tcGet : ToolCall → String → Option ToolBody
  | [], _ => none
  | (k, b) :: rest, key => if k = key then some b else tcGet rest key

/-- Python truthiness of an optional integer (`None` and `0` are falsy),
used by `if offset or limit`. -/
def truthyInt : Option Int → Bool
  | none => false
  | some n => !(n = 0)

/-- Python `str(x)` for an optional integer as interpolated by the
f-strings (`None` prints as `"None"`). -/
def pyShowOptInt : Option Int → String
  | none => "None"
  | some n => toString n

/-- Python slice-truncation `s[:n] + "..."` when `len(s) > m`. -/
def truncateOver (s : String) (m n : Nat) : String :=
  if s.length > m then (String.mk (s.data.take n)) ++ "..." else s

/-- `format_tool_call_start` (`src/tool_formatters.py` lines 5-58). -/
def format_tool_call_start (tool_call : ToolCall) (tool_count : Nat) :
    Option String :=
  match tcGet tool_call "writeToolCall" with
  | some b =>
      some ("🖊️ Tool #" ++ toString tool_count ++ ": Creating " ++
        (b.args.path.getD "unknown") ++ "\n ")
  | none =>
  match tcGet tool_call "readToolCall" with
  | some b =>
      if truthyInt b.args.offset || truthyInt b.args.limit then
        some ("📖 Tool #" ++ toString tool_count ++ ": Reading " ++
          (b.args.path.getD "unknown") ++ " (offset=" ++ pyShowOptInt b.args.offset ++
          ", limit=" ++ pyShowOptInt b.args.limit ++ ")\n ")
      else
        some ("📖 Tool #" ++ toString tool_count ++ ": Reading " ++
          (b.args.path.getD "unknown") ++ "\n ")
  | none =>
  match tcGet tool_call "grepToolCall" with
  | some b =>
      some ("🔍 Tool #" ++ toString tool_count ++ ": Grep \x27" ++
        truncateOver (b.args.pattern.getD "") 50 47 ++ "\x27 in " ++
        (b.args.path.getD "unknown") ++ "\n ")
  | none =>
  match tcGet tool_call "shellToolCall" with
  | some b =>
      some ("💻 Tool #" ++ toString tool_count ++ ": Shell `" ++
        truncateOver (b.args.command.getD "") 60 57 ++ "`\n ")
  | none =>
  match tcGet tool_call "mcpToolCall" with
  | some b =>
      some ("🔌 Tool #" ++ toString tool_count ++ ": MCP " ++
        (b.args.providerIdentifier.getD "unknown") ++ "-" ++
        (b.args.name.getD "unknown") ++ "\n ")
  | none =>
  match tool_call with
  | [] => none
  | (key, _) :: _ =>
      some ("🔨 Tool #" ++ toString tool_count ++ ": " ++ key ++ " \n ")

/-- The `tool_prefix` of `format_tool_call_result`: Python
`f"Tool #{tool_number}: " if tool_number else ""`, where a `0` ordinal
would also be falsy. -/
def toolTag : Option Nat → String
  | none => ""
  | some n => if n = 0 then "" else "Tool #" ++ toString n ++ ": "

/-- `format_tool_call_result` (`src/tool_formatters.py` lines 61-144). -/
def format_tool_call_result (tool_call : ToolCall) (tool_number : Option Nat) :
    Option String :=
  let tp := toolTag tool_number
  match tcGet tool_call "writeToolCall" with
  | some b =>
      match b.result.success with
      | some sb =>
          some ("🖊️ " ++ tp ++ "Created " ++ toString (sb.linesCreated.getD 0) ++
            " lines (" ++ toString (sb.fileSize.getD 0) ++ " bytes)\n ")
      | none =>
          match b.result.errorMessage with
          | some msg => some ("🖊️ " ++ tp ++ "Error: " ++ (msg.getD "Unknown error") ++ "\n ")
          | none => none
  | none =>
  match tcGet tool_call "readToolCall" with
  | some b =>
      match b.result.success with
      | some sb =>
          if truthyInt sb.linesRead && !(sb.linesRead.getD 0 = sb.totalLines.getD 0) then
            some ("📖 " ++ tp ++ "Read " ++ toString (sb.linesRead.getD 0) ++ "/" ++
              toString (sb.totalLines.getD 0) ++ " lines\n ")
          else
            some ("📖 " ++ tp ++ "Read " ++ toString (sb.totalLines.getD 0) ++ " lines\n ")
      | none =>
          match b.result.errorMessage with
          | some msg => some ("📖 " ++ tp ++ "Error: " ++ (msg.getD "Unknown error") ++ "\n ")
          | none => none
  | none =>
  match tcGet tool_call "grepToolCall" with
  | some b =>
      match b.result.success with
      | some sb =>
          some ("🔍 " ++ tp ++ "Found " ++ toString (sb.matchCount.getD 0) ++
            " matches in " ++ toString (sb.lineCount.getD 0) ++ " lines\n ")
      | none =>
          match b.result.errorMessage with
          | some msg => some ("🔍 " ++ tp ++ "Error: " ++ (msg.getD "Unknown error") ++ "\n ")
          | none => none
  | none =>
  match tcGet tool_call "shellToolCall" with
  | some b =>
      match b.result.success with
      | some sb =>
          if sb.exitCode.getD 0 = 0 then
            some ("💻 " ++ tp ++ "Command completed (exit code: " ++
              toString (sb.exitCode.getD 0) ++ ")\n ")
          else
            some ("💻 " ++ tp ++ "Command failed (exit code: " ++
              toString (sb.exitCode.getD 0) ++ ")\n ")
      | none =>
          match b.result.errorMessage with
          | some msg => some ("💻 " ++ tp ++ "Error: " ++ (msg.getD "Unknown error") ++ "\n ")
          | none => none
  | none =>
  match tcGet tool_call "mcpToolCall" with
  | some b =>
      match b.result.rejectedReason with
      | some reason => some ("🔌 " ++ tp ++ "Rejected: " ++ (reason.getD "Unknown reason") ++ "\n ")
      | none =>
          match b.result.success with
          | some _ => some ("🔌 " ++ tp ++ "Completed\n ")
          | none =>
              match b.result.errorMessage with
              | some msg =>
                  some ("🔌 " ++ tp ++ "Error: " ++ (msg.getD "Unknown error") ++ "\n ")
              | none => none
  | none =>
  match tool_call with
  | [] => none
  | (_, b) :: _ =>
      match b.result.rejectedReason with
      | some reason => some ("🔨 " ++ tp ++ "Rejected: " ++ (reason.getD "Unknown reason") ++ "\n ")
      | none =>
          match b.result.success with
          | some _ => some ("🔨 " ++ tp ++ "Completed\n ")
          | none =>
              match b.result.errorMessage with
              | some msg =>
                  some ("🔨 " ++ tp ++ "Error: " ++ (msg.getD "Unknown error") ++ "\n ")
              | none => none

/-! ## Process executor, streaming mode (src/relay.py lines 438-549,
identical in src/executor.py lines 65-176)

The line-delimited stdout is modelled as a list of stripped non-blank
lines, each either a decoded event (the fields `run_stream` reads) or a
malformed line that fails JSON decoding. The loop state is exactly the
four Python locals `tool_count`, `call_id_to_tool_number`,
`last_full_text` and `last_type` (`line_count` only feeds logging). -/

/-- One entry of `message.content`: `item.get("type")` and
`item.get("text", "")`. -/
structure ContentItem where
  itemType : String
  text : String := ""
deriving DecidableEq, Repr

/-- One decoded stream event, restricted to the fields `run_stream`
reads. `eventType` is `data.get("type")` (`none` when absent);
`hasTimestamp` is `"timestamp_ms" in data`; `contentItems` is
`data.get("message", {}).get("content", [])`. -/
structure StreamEvent where
  eventType : Option String := none
  hasTimestamp : Bool := false
  contentItems : List ContentItem := []
  subtype : Option String := none
  callId : Option String := none
  toolCall : ToolCall := []
deriving DecidableEq, Repr

/-- A stripped, non-blank stdout line: JSON-decodable or not. -/
inductive StreamLine
  | malformed (raw : String)
  | event (e : StreamEvent)
deriving DecidableEq, Repr

/-- The loop state across lines. `lastType` starts as Python `None`,
which coincides with the `None` a type-less event carries, exactly as in
the source comparison `event_type != last_type`. -/
structure StreamState where
  toolCount : Nat := 0
  callMap : List (String × Nat) := []
  lastFullText : String := ""
  lastType : Option String := none
deriving DecidableEq, Repr

/-- `call_id_to_tool_number.get(call_id)`. -/
def cmLookup : List (String × Nat) → String → Option Nat
  | [], _ => none
  | (k, n) :: rest, key => if k = key then some n else cmLookup rest key

/-- `call_id_to_tool_number[call_id] = tool_count` (dict assignment). -/
def cmInsert : List (String × Nat) → String → Nat → List (String × Nat)
  | [], key, n => [(key, n)]
  | (k, m) :: rest, key, n =>
      if k = key then (k, n) :: rest else (k, m) :: cmInsert rest key n

/-- Python truthiness of `call_id` (`None` and `""` are falsy). -/
def truthyStr : Option String → Bool
  | none => false
  | some s => !(s = "")

/-- The `full_text` accumulation over `content_list`: concatenate the
`text` of every `text`-typed item. -/
def eventFullText (items : List ContentItem) : String :=
  items.foldl (fun acc it => if it.itemType = "text" then acc ++ it.text else acc) ""

/-- Python `if tool_info: yield tool_info` — emit an optional string
unless it is falsy (`None` or empty). -/
def optEmit : Option String → List String
  | none => []
  | some s => if s = "" then [] else [s]

/-- The outcome of one loop iteration: the updated state, the chunks
yielded, and whether the loop `break`s (only a `result` event does). -/
structure StepResult where
  state : StreamState
  emits : List String
  stop : Bool := false
deriving DecidableEq, Repr

/-- One iteration of the `async for line in process.stdout` body. A
malformed line yields itself and leaves all state untouched. For an
event, rule 2 first: a changed `type` resets `last_full_text` and yields
a newline. An empty-text timestamped assistant event hits `continue`,
skipping the trailing `last_type` assignment; a `result` event `break`s
before it; every other path ends with `last_type = event_type`. -/
def processLine (st : StreamState) : StreamLine → StepResult
  | .malformed raw => { state := st, emits := [raw] }
  | .event e =>
      let typeChanged : Bool := !(e.eventType == st.lastType)
      let sep : List String := if typeChanged then ["\n"] else []
      let st1 := if typeChanged then { st with lastFullText := "" } else st
      if e.eventType == some "assistant" then
        if e.hasTimestamp then
          let full := eventFullText e.contentItems
          if full = "" then
            { state := st1, emits := sep }
          else
            let emit := if !(st1.lastFullText == full) then [full] else []
            { state :=
                { st1 with
                  lastFullText := st1.lastFullText ++ full,
                  lastType := e.eventType },
              emits := sep ++ emit }
        else
          { state := { st1 with lastType := e.eventType }, emits := sep }
      else if e.eventType == some "system" then
        { state := { st1 with lastType := e.eventType }, emits := sep }
      else if e.eventType == some "thinking" then
        { state := { st1 with lastType := e.eventType }, emits := sep ++ ["."] }
      else if e.eventType == some "tool_call" then
        if e.subtype == some "started" then
          let tc := st1.toolCount + 1
          let cm :=
            if truthyStr e.callId then cmInsert st1.callMap (e.callId.getD "") tc
            else st1.callMap
          { state :=
              { st1 with
                toolCount := tc,
                callMap := cm,
                lastType := e.eventType },
            emits := sep ++ optEmit (format_tool_call_start e.toolCall tc) }
        else if e.subtype == some "completed" then
          let n :=
            if truthyStr e.callId then cmLookup st1.callMap (e.callId.getD "")
            else none
          { state := { st1 with lastType := e.eventType },
            emits := sep ++ optEmit (format_tool_call_result e.toolCall n) }
        else
          { state := { st1 with lastType := e.eventType }, emits := sep }
      else if e.eventType == some "result" then
        { state := st1, emits := sep, stop := true }
      else
        { state := { st1 with lastType := e.eventType }, emits := sep }

/-- The whole read loop: fold `processLine` over the lines, stopping at
the first `result` event. Returns all yielded chunks and the final
state. -/
def runStreamLines (st : StreamState) : List StreamLine → List String × StreamState
  | [] => ([], st)
  | l :: rest =>
      let r := processLine st l
      if r.stop then (r.emits, r.state)
      else
        let rr := runStreamLines r.state rest
        (r.emits ++ rr.1, rr.2)

/-- Whether the stream delivers a `result` event: only such an event
stops the loop, so one is consumed exactly when one occurs in the line
list. -/
def deliversResult (lines : List StreamLine) : Bool :=
  lines.any fun l =>
    match l with
    | .event e => e.eventType == some "result"
    | .malformed _ => false

/-- `Executor.run_stream` end to end: the chunks the generator yields,
and the error the trailing exit-code check raises (`none` when it
returns normally). The check `if process.returncode != 0` runs after the
loop on every path, with no exemption for streams that delivered a
`result` event. -/
def run_stream (lines : List StreamLine) (returncode : Int) (stderr : String) :
    List String × Option ExecError :=
  let chunks := (runStreamLines {} lines).1
  if returncode ≠ 0 then
    (chunks,
      some ("CLI execution failed (code " ++ toString returncode ++ "): " ++ stderr))
  else
    (chunks, none)

/-! ### Claim C5 -/

/-- Claim C5, counterexample: the stream delivers a `result` event, the
process then exits with code 1 — and `run_stream` still raises the
execution failure; no exemption for delivered results exists after the
loop. -/
theorem C5_counterexample :
    deliversResult [.event { eventType := some "result" }] = true ∧
    (run_stream [.event { eventType := some "result" }] 1 "boom").2 =
      some "CLI execution failed (code 1): boom" := by
  exact ⟨rfl, rfl⟩

/-- Claim C5 (amended): after the loop, a non-zero exit code always
makes `run_stream` raise an execution failure carrying the captured
stderr — also when the stream already delivered a `result` event — and a
zero exit code never raises. -/
theorem C5_stream_exit_check (lines : List StreamLine) (returncode : Int)
    (stderr : String) (hres : deliversResult lines = true)
    (hrc : returncode ≠ 0) :
    (run_stream lines returncode stderr).2 =
      some ("CLI execution failed (code " ++ toString returncode ++ "): " ++ stderr) ∧
    (∀ lines2 err2, (run_stream lines2 0 err2).2 = none) := by
  constructor
  · unfold run_stream
    rw [if_pos hrc]
  · intro lines2 err2
    rfl

/-- Claim C5, witness: the amended theorem at a stream consisting of one
`result` event and a process exiting 1. -/
theorem C5_witness :
    (deliversResult [.event { eventType := some "result" }] = true ∧
      (1 : Int) ≠ 0) ∧
    ((run_stream [.event { eventType := some "result" }] 1 "boom").2 =
        some ("CLI execution failed (code " ++ toString (1 : Int) ++ "): " ++ "boom") ∧
      (∀ lines2 err2, (run_stream lines2 0 err2).2 = none)) :=
  ⟨⟨rfl, by decide⟩,
    C5_stream_exit_check [.event { eventType := some "result" }] 1 "boom" rfl (by decide)⟩

/-! ### Claim C2 -/

/-- A timestamped assistant event carrying one text item, as in the
stream tests. -/
def assistantTextEvent (t : String) : StreamEvent :=
  { eventType := some "assistant", hasTimestamp := true,
    contentItems := [{ itemType := "text", text := t }] }

/-- Claim C2: for a timestamped assistant event, the concatenated
text-item content is emitted as a chunk exactly when it is non-empty and
differs from the text accumulated so far for the current message (the
accumulator resets when the event type changes, which also emits the
separator newline); in particular `"Hello"` then `" World"` yield the
chunks `["\n", "Hello", " World"]`, and two consecutive identical
assistant events yield a single emission. -/
theorem C2_delta_emission (st : StreamState) (e : StreamEvent)
    (htype : e.eventType = some "assistant") (hts : e.hasTimestamp = true) :
    ((processLine st (.event e)).emits =
      (if e.eventType ≠ st.lastType then ["\n"] else []) ++
      (if eventFullText e.contentItems ≠ "" ∧
          eventFullText e.contentItems ≠
            (if e.eventType ≠ st.lastType then "" else st.lastFullText)
        then [eventFullText e.contentItems] else [])) ∧
    (runStreamLines {} [.event (assistantTextEvent "Hello"),
        .event (assistantTextEvent " World")]).1 = ["\n", "Hello", " World"] ∧
    (runStreamLines {} [.event (assistantTextEvent "Hello"),
        .event (assistantTextEvent "Hello")]).1 = ["\n", "Hello"] := by
  refine ⟨?_, by decide, by decide⟩
  simp only [processLine]
  rw [htype, hts]
  by_cases hch : (some "assistant" : Option String) = st.lastType
  · simp only [htype, ← hch]
    by_cases hfull : eventFullText e.contentItems = ""
    · simp [hfull]
    · by_cases hdup : st.lastFullText = eventFullText e.contentItems
      · simp [hfull, hdup]
      · simp [hfull, hdup, Ne.symm hdup]
  · simp only [htype, hch]
    by_cases hfull : eventFullText e.contentItems = ""
    · simp [hfull, hch, Ne.symm hch]
    · simp [hfull, hch, Ne.symm hch, Ne.symm hfull]

/-- Claim C2, witness: the general emission rule applied to a concrete
fresh-state `"Hello"` event (type transition separator plus one chunk). -/
theorem C2_witness :
    ((assistantTextEvent "Hello").eventType = some "assistant" ∧
      (assistantTextEvent "Hello").hasTimestamp = true) ∧
    (processLine {} (.event (assistantTextEvent "Hello"))).emits =
      (if (assistantTextEvent "Hello").eventType ≠ ({} : StreamState).lastType
        then ["\n"] else []) ++
      (if eventFullText (assistantTextEvent "Hello").contentItems ≠ "" ∧
          eventFullText (assistantTextEvent "Hello").contentItems ≠
            (if (assistantTextEvent "Hello").eventType ≠ ({} : StreamState).lastType
              then "" else ({} : StreamState).lastFullText)
        then [eventFullText (assistantTextEvent "Hello").contentItems] else []) :=
  ⟨⟨rfl, rfl⟩,
    (C2_delta_emission {} (assistantTextEvent "Hello") rfl rfl).1⟩

/-! ### Claim C7 -/

/-- A `tool_call`/`started` event line with the given `call_id` and
payload. -/
def startedLine (cid : String) (tc : ToolCall) : StreamLine :=
  .event
    { eventType := some "tool_call",
      subtype := some "started",
      callId := some cid,
      toolCall := tc }

/-- A `tool_call`/`completed` event line with the given `call_id` and
payload. -/
def completedLine (cid : String) (tc : ToolCall) : StreamLine :=
  .event
    { eventType := some "tool_call",
      subtype := some "completed",
      callId := some cid,
      toolCall := tc }

/-- Claim C7: on `started(A), started(B), completed(B), completed(A)`
with distinct non-empty call ids, the ordinals are assigned 1 to A and 2
to B strictly by `started` arrival order, each `completed` summary is
formatted with the ordinal recorded for its own `call_id` (B with 2, A
with 1, despite the reversed completion order), and a `completed` event
whose `call_id` was never recorded is formatted with `tool_number =
none`, whose prefix is the empty string. -/
theorem C7_tool_pairing (cidA cidB : String) (tcA tcB tcB2 tcA2 : ToolCall)
    (hA : cidA ≠ "") (hB : cidB ≠ "") (hAB : cidA ≠ cidB) :
    (runStreamLines {} [startedLine cidA tcA, startedLine cidB tcB,
        completedLine cidB tcB2, completedLine cidA tcA2]).1 =
      ["\n"] ++ optEmit (format_tool_call_start tcA 1) ++
        optEmit (format_tool_call_start tcB 2) ++
        optEmit (format_tool_call_result tcB2 (some 2)) ++
        optEmit (format_tool_call_result tcA2 (some 1)) ∧
    cmLookup (runStreamLines {} [startedLine cidA tcA, startedLine cidB tcB,
        completedLine cidB tcB2, completedLine cidA tcA2]).2.callMap cidA = some 1 ∧
    cmLookup (runStreamLines {} [startedLine cidA tcA, startedLine cidB tcB,
        completedLine cidB tcB2, completedLine cidA tcA2]).2.callMap cidB = some 2 ∧
    (∀ (st : StreamState) (cid : String) (tc : ToolCall),
      cmLookup st.callMap cid = none →
      (processLine st (completedLine cid tc)).emits =
        (if (some "tool_call" : Option String) ≠ st.lastType then ["\n"] else []) ++
          optEmit (format_tool_call_result tc none)) ∧
    toolTag none = "" := by
  refine ⟨?_, ?_, ?_, ?_, rfl⟩
  · simp [runStreamLines, processLine, startedLine, completedLine, truthyStr,
      cmInsert, cmLookup, hA, hB, hAB, Ne.symm hAB, List.append_assoc]
  · simp [runStreamLines, processLine, startedLine, completedLine, truthyStr,
      cmInsert, cmLookup, hA, hB, hAB, Ne.symm hAB]
  · simp [runStreamLines, processLine, startedLine, completedLine, truthyStr,
      cmInsert, cmLookup, hA, hB, hAB, Ne.symm hAB]
  · intro st cid tc hmiss
    simp only [processLine, completedLine]
    by_cases hch : (some "tool_call" : Option String) = st.lastType
    · by_cases hcid : cid = ""
      · simp [← hch, truthyStr, hcid]
      · simp [← hch, truthyStr, hcid, hmiss]
    · by_cases hcid : cid = ""
      · simp [hch, Ne.symm hch, truthyStr, hcid]
      · simp [hch, Ne.symm hch, truthyStr, hcid, hmiss]

/-- A `started` payload: `writeToolCall` with a target path. -/
def tcWrite : ToolCall := [("writeToolCall", { args := { path := some "notes.txt" } })]

/-- A `completed` payload: `writeToolCall` with a success result. -/
def tcWriteDone : ToolCall :=
  [("writeToolCall",
    { result := { success := some { linesCreated := some 3, fileSize := some 9 } } })]

/-- Claim C7, witness: the pairing theorem at call ids `"a"`, `"b"` with
concrete write payloads; the interleaved completions carry `Tool #2`
then `Tool #1`. -/
theorem C7_witness :
    (("a" : String) ≠ "" ∧ ("b" : String) ≠ "" ∧ ("a" : String) ≠ "b") ∧
    ((runStreamLines {} [startedLine "a" tcWrite, startedLine "b" tcWrite,
        completedLine "b" tcWriteDone, completedLine "a" tcWriteDone]).1 =
      ["\n"] ++ optEmit (format_tool_call_start tcWrite 1) ++
        optEmit (format_tool_call_start tcWrite 2) ++
        optEmit (format_tool_call_result tcWriteDone (some 2)) ++
        optEmit (format_tool_call_result tcWriteDone (some 1)) ∧
      cmLookup (runStreamLines {} [startedLine "a" tcWrite, startedLine "b" tcWrite,
        completedLine "b" tcWriteDone, completedLine "a" tcWriteDone]).2.callMap "a" =
        some 1 ∧
      cmLookup (runStreamLines {} [startedLine "a" tcWrite, startedLine "b" tcWrite,
        completedLine "b" tcWriteDone, completedLine "a" tcWriteDone]).2.callMap "b" =
        some 2 ∧
      (∀ (st : StreamState) (cid : String) (tc : ToolCall),
        cmLookup st.callMap cid = none →
        (processLine st (completedLine cid tc)).emits =
          (if (some "tool_call" : Option String) ≠ st.lastType then ["\n"] else []) ++
            optEmit (format_tool_call_result tc none)) ∧
      toolTag none = "") :=
  ⟨⟨by decide, by decide, by decide⟩,
    C7_tool_pairing "a" "b" tcWrite tcWrite tcWriteDone tcWriteDone
      (by decide) (by decide) (by decide)⟩

/-! ## History fingerprint (src/session_manager.py lines 41-74)

`calculate_history_hash` projects each message dict to
`{"role": d.get("role"), "content": d.get("content")}`, serializes the
projected list with `json.dumps(..., sort_keys=True,
separators=(",", ":"))` (canonical JSON: sorted keys, no incidental
whitespace, `ensure_ascii` escaping) and applies SHA-256. The SHA-256
primitive is passed in as `sha256hex`; messages arrive as parsed JSON
objects, so transport-level field order is the order of the association
list and transport-level whitespace has already disappeared at parse
time. -/

/-- A parsed JSON value. Numeric values are restricted to the integers,
which is all the chat payloads carry. -/
inductive JValue where
  | null
  | bool (b : Bool)
  | num (n : Int)
  | str (s : String)
  | arr (xs : List JValue)
  | obj (fields : List (String × JValue))

/-- A parsed JSON object (a Python dict): keys in insertion order. -/
abbrev PyDict := List (String × JValue)

/-- Lowercase hexadecimal digit, as CPython emits in `\uXXXX` escapes. -/
def hexDigit (n : Nat) : Char :=
  if n < 10 then Char.ofNat (48 + n) else Char.ofNat (87 + n)

/-- Four lowercase hex digits. -/
def hex4 (n : Nat) : String :=
  String.mk [hexDigit (n / 4096 % 16), hexDigit (n / 256 % 16),
    hexDigit (n / 16 % 16), hexDigit (n % 16)]

/-- `json.dumps` escaping of one character with the default
`ensure_ascii=True`: the two-character escapes, `\uXXXX` for the other
control characters and everything outside the printable ASCII range
(surrogate pairs above the BMP). -/
def escapeChar (c : Char) : String :=
  if c = '"' then "\\\""
  else if c = '\\' then "\\\\"
  else if c = '\n' then "\\n"
  else if c = '\t' then "\\t"
  else if c = '\r' then "\\r"
  else if c = '\x08' then "\\b"
  else if c = '\x0c' then "\\f"
  else if c.toNat < 0x20 ∨ c.toNat > 0x7e then
    if c.toNat < 0x10000 then "\\u" ++ hex4 c.toNat
    else
      let v := c.toNat - 0x10000
      "\\u" ++ hex4 (0xd800 + v / 0x400) ++ "\\u" ++ hex4 (0xdc00 + v % 0x400)
  else
    String.singleton c

/-- `json.dumps` string serialization. -/
def jsonQuote (s : String) : String :=
  "\"" ++ String.join (s.data.map escapeChar) ++ "\""

/-- Insertion into a key-sorted list of serialized object fields. -/
def insertSorted (x : String × String) : List (String × String) → List (String × String)
  | [] => [x]
  | y :: rest => if x.1 < y.1 then x :: y :: rest else y :: insertSorted x rest

/-- `sorted(...)` of serialized fields by key (Python compares strings
by code point; object keys coming from dicts are unique, so stability is
irrelevant), keeping the serialized field texts. -/
def sortByKey (l : List (String × String)) : List String :=
  (l.foldr insertSorted []).map Prod.snd

mutual

/-- `json.dumps(v, sort_keys=True, separators=(",", ":"))`. Each object
field is serialized independently and the serialized fields are then
ordered by key, which commutes with serializing in sorted order. -/
def dumpsJson : JValue → String
  | .null => "null"
  | .bool true => "true"
  | .bool false => "false"
  | .num n => toString n
  | .str s => jsonQuote s
  | .arr xs => "[" ++ String.intercalate "," (dumpsList xs) ++ "]"
  | .obj fs => "\x7b" ++ String.intercalate "," (sortByKey (dumpsFields fs)) ++ "\x7d"

/-- Serialize the elements of an array. -/
def dumpsList : List JValue → List String
  | [] => []
  | x :: rest => dumpsJson x :: dumpsList rest

/-- Serialize each object field to `(key, quoted-key:value)`. -/
def dumpsFields : List (String × JValue) → List (String × String)
  | [] => []
  | (k, v) :: rest => (k, jsonQuote k ++ ":" ++ dumpsJson v) :: dumpsFields rest

end

/-- Python `d.get(k)`: `None` when the key is absent. -/
def dictGet : PyDict → String → Option JValue
  | [], _ => none
  | (k, v) :: rest, key => if k = key then some v else dictGet rest key

/-- The `clean_msg` built for one message: only `role` and `content`
survive, each `None` (JSON `null`) when absent. -/
def canonicalMessage (d : PyDict) : JValue :=
  .obj [("role", (dictGet d "role").getD .null),
    ("content", (dictGet d "content").getD .null)]

/-- `SessionManager.calculate_history_hash` with the SHA-256 hex digest
passed in as `sha256hex`. -/
def calculate_history_hash (sha256hex : String → String)
    (messages : List PyDict) : String :=
  sha256hex (dumpsJson (.arr (messages.map canonicalMessage)))

/-- Claim C8: two message lists whose per-message `(role, content)`
projections agree yield the same digest — extra fields, dict key order
and anything else in the messages are irrelevant — and repeated calls on
the same list agree. -/
theorem C8_fingerprint_determinism (sha256hex : String → String)
    (msgs1 msgs2 : List PyDict)
    (hproj : List.Forall₂ (fun d1 d2 => dictGet d1 "role" = dictGet d2 "role" ∧
      dictGet d1 "content" = dictGet d2 "content") msgs1 msgs2) :
    calculate_history_hash sha256hex msgs1 = calculate_history_hash sha256hex msgs2 ∧
    calculate_history_hash sha256hex msgs1 = calculate_history_hash sha256hex msgs1 := by
  refine ⟨?_, rfl⟩
  unfold calculate_history_hash
  have hmap : msgs1.map canonicalMessage = msgs2.map canonicalMessage := by
    induction hproj with
    | nil => rfl
    | cons h _ ih =>
        simp only [List.map_cons, ih, List.cons.injEq, and_true]
        unfold canonicalMessage
        rw [h.1, h.2]
  rw [hmap]

/-- Claim C8, witness: the same `(role, content)` projection with
different key order and an extra field gives the same fingerprint. -/
theorem C8_witness :
    List.Forall₂ (fun d1 d2 => dictGet d1 "role" = dictGet d2 "role" ∧
      dictGet d1 "content" = dictGet d2 "content")
      [[("role", JValue.str "user"), ("content", JValue.str "hi")]]
      [[("content", JValue.str "hi"), ("extra", JValue.num 5),
        ("role", JValue.str "user")]] ∧
    (calculate_history_hash (fun s => s)
        [[("role", JValue.str "user"), ("content", JValue.str "hi")]] =
      calculate_history_hash (fun s => s)
        [[("content", JValue.str "hi"), ("extra", JValue.num 5),
          ("role", JValue.str "user")]] ∧
    calculate_history_hash (fun s => s)
        [[("role", JValue.str "user"), ("content", JValue.str "hi")]] =
      calculate_history_hash (fun s => s)
        [[("role", JValue.str "user"), ("content", JValue.str "hi")]]) :=
  ⟨List.Forall₂.cons ⟨rfl, rfl⟩ List.Forall₂.nil,
    C8_fingerprint_determinism (fun s => s)
      [[("role", JValue.str "user"), ("content", JValue.str "hi")]]
      [[("content", JValue.str "hi"), ("extra", JValue.num 5),
        ("role", JValue.str "user")]]
      (List.Forall₂.cons ⟨rfl, rfl⟩ List.Forall₂.nil)⟩
